import Mathlib

/-!
Verification of the media-operation dispatch and filter-graph construction
layer of the finalcut server (`src/server.js`).

The JavaScript source is shallowly embedded: pure filter-graph builders
become Lean functions on lists and strings, numeric filter parameters are
modelled over `ℚ` (the JS arithmetic involved here is only multiplication
and division by 2, addition and subtraction, all exact in binary floating
point and in `ℚ`), the stateful HTTP handlers become explicit state-passing
functions producing a trace of temp files created and deleted, and the
fallible probe becomes an `Except`.
-/

namespace FinalCut

/-! ## Stream introspection (`checkHasAudioStream`, server.js:3027-3041)

`ffprobe` either fails with an error or yields metadata whose `streams`
field may be absent.  `checkHasAudioStream` resolves `false` on probe
error, otherwise checks whether some stream has `codec_type === 'audio'`.
-/

/-- One entry of `metadata.streams` as far as the server inspects it. -/
structure StreamRec where
  codec_type : String
deriving DecidableEq

/-- Probed metadata: the `streams` field may be missing (`undefined`). -/
structure Metadata where
  streams : Option (List StreamRec)
deriving DecidableEq

/-- Result of `ffmpeg.ffprobe`: an error (carrying the message) or metadata. -/
abbrev ProbeResult := Except String Metadata

/-- Embedding of `checkHasAudioStream` (server.js:3027-3041): on probe error
resolve `false`; otherwise `metadata.streams && metadata.streams.some(s =>
s.codec_type === 'audio')`, where an absent `streams` field is falsy. -/
def checkHasAudioStream (probe : ProbeResult) : Bool :=
  match probe with
  | .error _ => false
  | .ok md =>
    match md.streams with
    | none => false
    | some streams => streams.any (fun s => s.codec_type == "audio")

/-- JS `a || b` on strings: the empty string is falsy. -/
def orElseStr (s d : String) : String := if s = "" then d else s

/-- Response of the `get_video_info` special case. -/
inductive InfoResponse where
  | json (md : Metadata)
  | error (status : Nat) (message : String)
deriving DecidableEq

/-- Embedding of the `get_video_info` case of the streaming handler
(server.js:2506-2527): a successful probe is answered with the metadata as
JSON; a failed probe is fatal and surfaced as a 500 JSON error built from
`error.message || 'Failed to get video info'`. -/
def getVideoInfoStreaming (probe : ProbeResult) : InfoResponse :=
  match probe with
  | .ok md => .json md
  | .error e => .error 500 (orElseStr e "Failed to get video info")

/-! ## `speed_video`: the atempo chain (server.js:2584-2604 / 675-709)

The atempo filter accepts only factors in `[0.5, 2.0]`.  The handler
decomposes an out-of-range `speed` with a `while` loop that repeatedly
doubles (below `0.5`) or halves (above `2.0`) the remaining factor, pushing
`0.5` (resp. `2.0`) stages.  The loops are genuinely partial (they do not
terminate for `speed <= 0`), so the embedding is fuel-indexed: `none` means
the loop did not finish within the given fuel. -/

/-- The `while (remainingSpeed < 0.5)` decomposition loop plus the trailing
`if (remainingSpeed !== 1.0)` push, for `speed < 0.5` (server.js:2590-2594). -/
def atempoDown (fuel : Nat) (remainingSpeed : ℚ) (filters : List ℚ) : Option (List ℚ) :=
  match fuel with
  | 0 => none
  | fuel + 1 =>
    if remainingSpeed < 1/2 then
      atempoDown fuel (remainingSpeed * 2) (filters ++ [1/2])
    else if remainingSpeed ≠ 1 then
      some (filters ++ [remainingSpeed])
    else
      some filters

/-- The `while (remainingSpeed > 2.0)` decomposition loop plus the trailing
`if (remainingSpeed !== 1.0)` push, for `speed > 2.0` (server.js:2596-2600). -/
def atempoUp (fuel : Nat) (remainingSpeed : ℚ) (filters : List ℚ) : Option (List ℚ) :=
  match fuel with
  | 0 => none
  | fuel + 1 =>
    if remainingSpeed > 2 then
      atempoUp fuel (remainingSpeed / 2) (filters ++ [2])
    else if remainingSpeed ≠ 1 then
      some (filters ++ [remainingSpeed])
    else
      some filters

/-- The list of atempo stage factors the `speed_video` case builds
(server.js:2584-2601): one stage for `speed ∈ [0.5, 2.0]`, otherwise the
chain produced by the matching decomposition loop. -/
def atempoStages (fuel : Nat) (speed : ℚ) : Option (List ℚ) :=
  if 1/2 ≤ speed ∧ speed ≤ 2 then some [speed]
  else if speed < 1/2 then atempoDown fuel speed []
  else atempoUp fuel speed []

/-- Semantics of the video filter `setpts=PTS/${speed}` built by
`speed_video` (server.js:2602): each presentation timestamp is divided by
the speed factor. -/
def setptsPTS (speed pts : ℚ) : ℚ := pts / speed

/-! ## `audio_pan` (server.js:2746-2761 / 889-908) -/

/-- Embedding of the pan-to-gain mapping of the `audio_pan` case: negative
pan keeps the left gain at 1 and sets the right gain to `1 + pan`; positive
pan sets the left gain to `1 - pan` and keeps the right gain at 1; zero pan
is unity on both.  Returns `(leftGain, rightGain)`. -/
def panGains (panValue : ℚ) : ℚ × ℚ :=
  if panValue < 0 then (1, 1 + panValue)
  else if panValue > 0 then (1 - panValue, 1)
  else (1, 1)

/-- The `audio_pan` case as the dispatcher runs it: the pan argument is
taken as-is — there is no range check anywhere in either handler — and the
gain pair is computed and handed to the filter string unconditionally.
The `Except` codomain records that no validation-error exit exists. -/
def audioPanProcess (pan : ℚ) : Except String (ℚ × ℚ) :=
  Except.ok (panGains pan)

/-! ## Multi-input transition filter builders
(server.js:3044-3089, 3092-3134, 3137-3210)

The three builders take `numVideos`, a `duration` (a number in JS; it is
only ever spliced into the filter string, so it is carried here as its
rendered string), the `hasAudio` vector probed per input, and (for
crossfade/wipe) a transition name that the bodies never use.  JS indexing
`hasAudio[i]` yields `undefined` (falsy) out of range, embedded as
`List.getD _ false`.  Each builder is split into a core producing the
`filters` / `audioFilters` lists the JS code pushes into, and a wrapper
performing the `numVideos < 2` guard (a thrown `Error`, embedded as
`Except.error`) and the final `join(';')`. -/

/-- The silent-audio pad pushed for input `i` when it lacks audio
(server.js:3068): `anullsrc=channel_layout=stereo:sample_rate=44100[silentI]`. -/
def silentFilter (i : Nat) : String :=
  "anullsrc=channel_layout=stereo:sample_rate=44100[silent" ++ toString i ++ "]"

/-- `Array.from({length: numVideos}, (_, i) => ` [i:v] `).join('')`. -/
def videoConcatInputs (numVideos : Nat) : String :=
  String.join ((List.range numVideos).map (fun i => "[" ++ toString i ++ ":v]"))

/-- `Array.from({length: numVideos}, (_, i) => hasAudio[i] ? ` [i:a] ` : ` [silentI] `).join('')`. -/
def audioConcatInputs (numVideos : Nat) (hasAudio : List Bool) : String :=
  String.join ((List.range numVideos).map (fun i =>
    if hasAudio.getD i false then "[" ++ toString i ++ ":a]"
    else "[silent" ++ toString i ++ "]"))

/-- The silent-pad generation loop shared by all three builders
(server.js:3065-3070): one `anullsrc` filter for every `i < numVideos`
with `!hasAudio[i]`. -/
def silentPadFilters (numVideos : Nat) (hasAudio : List Bool) : List String :=
  (List.range numVideos).filterMap (fun i =>
    if hasAudio.getD i false then none else some (silentFilter i))

/-- Core of `buildCrossfadeFilter` (server.js:3049-3088): the `filters` and
`audioFilters` lists as pushed by the source, before the final join. -/
def crossfadeFilterLists (numVideos : Nat) (hasAudio : List Bool) :
    List String × List String :=
  let anyHasAudio := hasAudio.any (fun h => h)
  if anyHasAudio then
    let allHasAudio := hasAudio.all (fun h => h)
    let silents := if !allHasAudio then silentPadFilters numVideos hasAudio else []
    let filters := silents ++
      [videoConcatInputs numVideos ++ "concat=n=" ++ toString numVideos ++ ":v=1:a=0[v]"]
    let audioFilters :=
      [audioConcatInputs numVideos hasAudio ++ "concat=n=" ++ toString numVideos ++ ":v=0:a=1[a]"]
    (filters, audioFilters)
  else
    ([videoConcatInputs numVideos ++ "concat=n=" ++ toString numVideos ++ ":v=1:a=0[v]"], [])

/-- Embedding of `buildCrossfadeFilter(numVideos, duration, hasAudio,
transition = 'fade')` (server.js:3044-3089).  `duration` and `transition`
are parameters the body never reads, exactly as in the source. -/
def buildCrossfadeFilter (numVideos : Nat) (duration : String) (hasAudio : List Bool)
    (transition : String := "fade") : Except String String :=
  if numVideos < 2 then
    Except.error "At least 2 videos required for crossfade"
  else
    let lists := crossfadeFilterLists numVideos hasAudio
    Except.ok (String.intercalate ";" (lists.1 ++ lists.2))

/-- Core of `buildWipeFilter` (server.js:3098-3133); the body is a verbatim
duplicate of the crossfade core in the source. -/
def wipeFilterLists (numVideos : Nat) (hasAudio : List Bool) :
    List String × List String :=
  let anyHasAudio := hasAudio.any (fun h => h)
  if anyHasAudio then
    let allHasAudio := hasAudio.all (fun h => h)
    let silents := if !allHasAudio then silentPadFilters numVideos hasAudio else []
    let filters := silents ++
      [videoConcatInputs numVideos ++ "concat=n=" ++ toString numVideos ++ ":v=1:a=0[v]"]
    let audioFilters :=
      [audioConcatInputs numVideos hasAudio ++ "concat=n=" ++ toString numVideos ++ ":v=0:a=1[a]"]
    (filters, audioFilters)
  else
    ([videoConcatInputs numVideos ++ "concat=n=" ++ toString numVideos ++ ":v=1:a=0[v]"], [])

/-- Embedding of `buildWipeFilter(numVideos, duration, transition, hasAudio)`
(server.js:3092-3134).  `duration` and `transition` are never read. -/
def buildWipeFilter (numVideos : Nat) (duration : String) (transition : String)
    (hasAudio : List Bool) : Except String String :=
  if numVideos < 2 then
    Except.error "At least 2 videos required for wipe transition"
  else
    let lists := wipeFilterLists numVideos hasAudio
    Except.ok (String.intercalate ";" (lists.1 ++ lists.2))

/-- The per-clip video filter of `buildFadeFilter` (server.js:3163-3196):
clip 0 is copied (both in the dedicated two-video branch and in the general
first-clip branch), the last and every middle clip get a fade-in at their
start. -/
def fadeClipVideoFilter (i numVideos : Nat) (duration : String) : String :=
  if i == 0 && numVideos == 2 then
    "[" ++ toString i ++ ":v]copy[v" ++ toString i ++ "fade]"
  else if i == 0 then
    "[" ++ toString i ++ ":v]copy[v" ++ toString i ++ "fade]"
  else if i == numVideos - 1 then
    "[" ++ toString i ++ ":v]fade=t=in:st=0:d=" ++ duration ++ "[v" ++ toString i ++ "fade]"
  else
    "[" ++ toString i ++ ":v]fade=t=in:st=0:d=" ++ duration ++ "[v" ++ toString i ++ "fade]"

/-- The per-clip audio filter of `buildFadeFilter` (pushed only when some
input has audio): `acopy` for clip 0, `afade=t=in` for the rest, fed from
the real stream or the synthesized silent pad. -/
def fadeClipAudioFilter (i numVideos : Nat) (duration : String) (hasAudio : List Bool) : String :=
  let audioSource :=
    if hasAudio.getD i false then "[" ++ toString i ++ ":a]" else "[silent" ++ toString i ++ "]"
  if i == 0 && numVideos == 2 then
    audioSource ++ "acopy[a" ++ toString i ++ "fade]"
  else if i == 0 then
    audioSource ++ "acopy[a" ++ toString i ++ "fade]"
  else if i == numVideos - 1 then
    audioSource ++ "afade=t=in:st=0:d=" ++ duration ++ "[a" ++ toString i ++ "fade]"
  else
    audioSource ++ "afade=t=in:st=0:d=" ++ duration ++ "[a" ++ toString i ++ "fade]"

/-- Core of `buildFadeFilter` (server.js:3142-3209): silent pads (when some
but not all inputs have audio), then the per-clip video filters, then the
video concat; the audio side mirrors it when any input has audio. -/
def fadeFilterLists (numVideos : Nat) (duration : String) (hasAudio : List Bool) :
    List String × List String :=
  let anyHasAudio := hasAudio.any (fun h => h)
  let silents :=
    if anyHasAudio && !(hasAudio.all (fun h => h)) then silentPadFilters numVideos hasAudio
    else []
  let videoLabels :=
    String.join ((List.range numVideos).map (fun i => "[v" ++ toString i ++ "fade]"))
  let audioLabels :=
    String.join ((List.range numVideos).map (fun i => "[a" ++ toString i ++ "fade]"))
  let filters := silents ++
    (List.range numVideos).map (fun i => fadeClipVideoFilter i numVideos duration) ++
    [videoLabels ++ "concat=n=" ++ toString numVideos ++ ":v=1:a=0[v]"]
  let audioFilters :=
    if anyHasAudio then
      (List.range numVideos).map (fun i => fadeClipAudioFilter i numVideos duration hasAudio) ++
      [audioLabels ++ "concat=n=" ++ toString numVideos ++ ":v=0:a=1[a]"]
    else []
  (filters, audioFilters)

/-- Embedding of `buildFadeFilter(numVideos, duration, hasAudio)`
(server.js:3137-3210). -/
def buildFadeFilter (numVideos : Nat) (duration : String) (hasAudio : List Bool) :
    Except String String :=
  if numVideos < 2 then
    Except.error "At least 2 videos required for fade transition"
  else
    let lists := fadeFilterLists numVideos duration hasAudio
    Except.ok (String.intercalate ";" (lists.1 ++ lists.2))

/-- The output labels the transition endpoint maps (server.js:2911 etc.):
`hasAudio.some(h => h) ? ['v', 'a'] : ['v']`. -/
def transitionOutputLabels (hasAudio : List Bool) : List String :=
  if hasAudio.any (fun h => h) then ["v", "a"] else ["v"]

/-! ## HTTP handlers: dispatch and temp-file lifecycle

The handlers are embedded as explicit state-passing functions over the set
of this request's temp files.  File names are symbolic (each real name is
`<kind>-<uuid>` with a collision-free uuid, so within one request the
kinds identify the files).  `fs.unlink(p)` is `List.erase`; the cleanup
loops `try { unlink } catch { ignore }` erase the same way (erasing an
absent element is a no-op, matching the ignored ENOENT).  The outcome of
the ffmpeg run and of the probe are oracle parameters, as are whether a
failed run left a partial output file behind. -/

/-- The case labels of the streaming handler's dispatch switch
(server.js:2549-2839), in source order. -/
def knownStreamingOps : List String :=
  ["resize_video", "crop_video", "rotate_video", "flip_video_horizontal", "add_text",
   "trim_video", "speed_video", "adjust_volume", "audio_fade", "highpass_filter",
   "lowpass_filter", "echo_effect", "bass_adjustment", "treble_adjustment", "equalizer",
   "normalize_audio", "delay_audio", "audio_chorus", "audio_flanger", "audio_phaser",
   "audio_vibrato", "audio_tremolo", "audio_compressor", "audio_gate",
   "audio_stereo_widen", "audio_reverse", "audio_limiter", "audio_silence_remove",
   "audio_pan", "adjust_brightness", "adjust_hue", "adjust_saturation",
   "convert_video_format", "convert_audio_format", "extract_audio", "fade_transition",
   "crossfade_transition"]

/-- The case labels of the buffered handler's dispatch switch
(server.js:641-961), in source order. -/
def knownBufferedOps : List String :=
  ["resize_video", "crop_video", "rotate_video", "flip_video_horizontal", "add_text",
   "trim_video", "speed_video", "adjust_volume", "add_audio_track", "audio_fade",
   "highpass_filter", "lowpass_filter", "echo_effect", "bass_adjustment",
   "treble_adjustment", "equalizer", "normalize_audio", "delay_audio", "audio_chorus",
   "audio_flanger", "audio_phaser", "audio_vibrato", "audio_tremolo", "audio_compressor",
   "audio_gate", "audio_stereo_widen", "audio_reverse", "audio_limiter",
   "audio_silence_remove", "audio_pan", "adjust_brightness", "adjust_hue",
   "adjust_saturation", "convert_video_format", "convert_audio_format", "extract_audio",
   "fade_transition", "crossfade_transition"]

/-- Outcome of one handler invocation: every temp file the handler ever
created, the temp files still existing after the response, the HTTP status,
the response error message (empty on success), and whether an ffmpeg
process was actually run. -/
structure HandlerResult where
  created : List String
  remaining : List String
  status : Nat
  errMessage : String
  ranFfmpeg : Bool
deriving DecidableEq

/-- Embedding of the buffered `/api/process-video` handler
(server.js:579-1038).  The input is always staged to a temp file before the
dispatch (server.js:598-610); `add_audio_track` stages a second temp file;
`get_video_info` probes instead of running ffmpeg, and its probe failure
rejects into the catch block; an unknown operation (or the
`crossfade_transition` stub) rejects into the catch block; otherwise ffmpeg
runs with outcome `jobOk`, a failed run leaving a partial output file iff
`producedOut`.  The catch block (server.js:1022-1037) unlinks input, output
and audio temp files, ignoring errors, and answers 500 with the rejection
message. -/
def processVideoBuffered (operation : String) (probeOk jobOk producedOut : Bool) :
    HandlerResult :=
  let inputPath := "input"
  let outputPath := "output"
  let audioPath := "audio"
  let isAddAudio := operation == "add_audio_track"
  let fs0 := if isAddAudio then [inputPath, audioPath] else [inputPath]
  if operation == "get_video_info" then
    if probeOk then
      -- metadata path: unlink input (and audio when staged), answer JSON
      let fs1 := fs0.erase inputPath
      let fs2 := if isAddAudio then fs1.erase audioPath else fs1
      ⟨fs0, fs2, 200, "", false⟩
    else
      -- ffprobe rejected: catch block cleans all three paths
      ⟨fs0, ((fs0.erase inputPath).erase outputPath).erase audioPath, 500,
        "ffprobe failed", false⟩
  else if operation == "crossfade_transition" then
    ⟨fs0, ((fs0.erase inputPath).erase outputPath).erase audioPath, 500,
      "crossfade_transition requires special multi-video handling", false⟩
  else if !(knownBufferedOps.contains operation) then
    ⟨fs0, ((fs0.erase inputPath).erase outputPath).erase audioPath, 500,
      "Unknown operation: " ++ operation, false⟩
  else if jobOk then
    -- ffmpeg wrote the output; read it back, unlink input, output, audio
    let fs1 := fs0 ++ [outputPath]
    let fs2 := (fs1.erase inputPath).erase outputPath
    let fs3 := if isAddAudio then fs2.erase audioPath else fs2
    ⟨fs1, fs3, 200, "", true⟩
  else
    -- ffmpeg failed (possibly leaving a partial output); catch block cleans
    let fs1 := if producedOut then fs0 ++ [outputPath] else fs0
    ⟨fs1, ((fs1.erase inputPath).erase outputPath).erase audioPath, 500,
      "Failed to process video", true⟩

/-- Embedding of the streaming `/api/process-video` handler
(server.js:2315-2853) at the dispatch level: `get_video_info` stages the
body to a temp file, probes it, and removes the file in the `finally`
block; every other known operation pipes the body straight through ffmpeg
and creates no temp file; the `crossfade_transition` stub and the default
case answer 400 before any file or process is created. -/
def processVideoStreaming (operation : String) (probeOk : Bool) : HandlerResult :=
  if operation == "get_video_info" then
    let fs0 := ["input"]
    if probeOk then ⟨fs0, fs0.erase "input", 200, "", false⟩
    else ⟨fs0, fs0.erase "input", 500, "Failed to get video info", false⟩
  else if operation == "crossfade_transition" then
    ⟨[], [], 400, "crossfade_transition requires special multi-video handling", false⟩
  else if knownStreamingOps.contains operation then
    ⟨[], [], 200, "", true⟩
  else
    ⟨[], [], 400, "Unknown operation: " ++ operation, false⟩

/-- `fs.unlink` over a list of paths (the cleanup loops over `tempFiles`). -/
def eraseAll (fs : List String) (ps : List String) : List String :=
  ps.foldl List.erase fs

/-- The transition types of the `/api/transition-videos` switch
(server.js:2905-2980). -/
def knownTransitions : List String :=
  ["crossfade", "wipe_left", "wipe_right", "wipe_up", "wipe_down", "slide_left",
   "slide_right", "slide_up", "slide_down", "dissolve", "fade"]

/-- Embedding of the `/api/transition-videos` handler (server.js:2856-3024).
Fewer than 2 files, or a missing transition field, is answered 400 before
any temp file is created or ffmpeg is invoked.  Otherwise the `numFiles`
inputs are staged, an unknown transition type rejects before ffmpeg runs,
and a known one runs ffmpeg with outcome `jobOk`; all staged inputs and the
output are unlinked on the success path (server.js:2999-3005) and in the
catch block (server.js:3014-3020). -/
def transitionVideos (numFiles : Nat) (transition : String)
    (hasTransitionField jobOk producedOut : Bool) : HandlerResult :=
  if numFiles < 2 then
    ⟨[], [], 400, "At least two video files are required for transitions", false⟩
  else if !hasTransitionField then
    ⟨[], [], 400, "No transition type specified", false⟩
  else
    let inputs := (List.range numFiles).map (fun i => "input-" ++ toString i)
    let outputPath := "output"
    if !(knownTransitions.contains transition) then
      ⟨inputs, (eraseAll inputs inputs).erase outputPath, 500,
        "Unknown transition type: " ++ transition, false⟩
    else if jobOk then
      let fs1 := inputs ++ [outputPath]
      ⟨fs1, (eraseAll fs1 inputs).erase outputPath, 200, "", true⟩
    else
      let fs1 := if producedOut then inputs ++ [outputPath] else inputs
      ⟨fs1, (eraseAll fs1 inputs).erase outputPath, 500,
        "Failed to process video transition", true⟩

/-! ## Helper lemmas -/

/-- The silent-pad loop emits one entry per `false` in the `hasAudio`
vector: counting over indices agrees with counting over the vector. -/
lemma length_filterMap_range (ha : List Bool) (f : Nat → String) :
    ((List.range ha.length).filterMap
      (fun i => if ha.getD i false then none else some (f i))).length
      = (ha.filter (fun b => !b)).length := by
  induction ha generalizing f with
  | nil => simp
  | cons b t ih =>
    have hcomp :
        ((fun i => if (b :: t).getD i false then none else some (f i)) ∘ Nat.succ)
          = fun i => if t.getD i false then none else some (f (i + 1)) := by
      funext i
      simp [Function.comp, List.getD_cons_succ]
    rw [List.length_cons, List.range_succ_eq_map, List.filterMap_cons, List.filterMap_map,
      hcomp]
    have ih' := ih (fun i => f (i + 1))
    simp only [List.getD_eq_getElem?_getD] at ih'
    cases b <;> simp [ih']

/-- `silentPadFilters` counts the audio-less inputs. -/
lemma silentPadFilters_length (n : Nat) (ha : List Bool) (hlen : ha.length = n) :
    (silentPadFilters n ha).length = (ha.filter (fun b => !b)).length := by
  subst hlen
  exact length_filterMap_range ha silentFilter

/-- When every input has audio, no silent pad is emitted. -/
lemma silentPadFilters_eq_nil (n : Nat) (ha : List Bool) (hlen : ha.length = n)
    (hall : ha.all (fun h => h) = true) : silentPadFilters n ha = [] := by
  rw [silentPadFilters, List.filterMap_eq_nil_iff]
  intro i hi
  rw [List.mem_range] at hi
  have hget : ha.getD i false = true := by
    rw [List.getD_eq_getElem ha false (by omega)]
    exact List.all_eq_true.mp hall _ (List.getElem_mem _)
  rw [List.getD_eq_getElem?_getD] at hget
  simp [hget]

/-- Shape of the crossfade core when at least one input has audio. -/
lemma crossfadeFilterLists_any (n : Nat) (ha : List Bool) (hlen : ha.length = n)
    (hany : ha.any (fun h => h) = true) :
    crossfadeFilterLists n ha =
      (silentPadFilters n ha ++
        [videoConcatInputs n ++ "concat=n=" ++ toString n ++ ":v=1:a=0[v]"],
       [audioConcatInputs n ha ++ "concat=n=" ++ toString n ++ ":v=0:a=1[a]"]) := by
  cases hall : ha.all (fun h => h) with
  | true => simp [crossfadeFilterLists, hany, hall, silentPadFilters_eq_nil n ha hlen hall]
  | false => simp [crossfadeFilterLists, hany, hall]

/-- Shape of the crossfade core when no input has audio. -/
lemma crossfadeFilterLists_none (n : Nat) (ha : List Bool)
    (hany : ha.any (fun h => h) = false) :
    crossfadeFilterLists n ha =
      ([videoConcatInputs n ++ "concat=n=" ++ toString n ++ ":v=1:a=0[v]"], []) := by
  simp [crossfadeFilterLists, hany]

/-- The wipe core is a verbatim duplicate of the crossfade core. -/
lemma wipeFilterLists_eq_crossfade : wipeFilterLists = crossfadeFilterLists := rfl

/-- Unlinking every path of `ps` from `ps ++ rest` leaves `rest`. -/
lemma eraseAll_append_self (ps rest : List String) : eraseAll (ps ++ rest) ps = rest := by
  induction ps generalizing rest with
  | nil => simp [eraseAll]
  | cons p t ih =>
    simp only [eraseAll, List.foldl_cons, List.cons_append]
    rw [List.erase_cons_head]
    exact ih rest

/-- Invariant of the slow-speed decomposition loop: the product of the
emitted stages equals the product of the accumulator times the remaining
factor. -/
lemma atempoDown_prod :
    ∀ (fuel : Nat) (r : ℚ) (acc l : List ℚ),
      atempoDown fuel r acc = some l → l.prod = acc.prod * r := by
  intro fuel
  induction fuel with
  | zero => intro r acc l h; simp [atempoDown] at h
  | succ n ih =>
    intro r acc l h
    rw [atempoDown] at h
    split_ifs at h with h1 h2
    · have hrec := ih _ _ _ h
      rw [hrec, List.prod_append, List.prod_singleton]
      ring
    · rw [Option.some.injEq] at h
      rw [← h, List.prod_append, List.prod_singleton]
    · rw [Option.some.injEq] at h
      rw [← h]
      push_neg at h2
      rw [h2, mul_one]

/-- Invariant of the fast-speed decomposition loop. -/
lemma atempoUp_prod :
    ∀ (fuel : Nat) (r : ℚ) (acc l : List ℚ),
      atempoUp fuel r acc = some l → l.prod = acc.prod * r := by
  intro fuel
  induction fuel with
  | zero => intro r acc l h; simp [atempoUp] at h
  | succ n ih =>
    intro r acc l h
    rw [atempoUp] at h
    split_ifs at h with h1 h2
    · have hrec := ih _ _ _ h
      rw [hrec, List.prod_append, List.prod_singleton]
      ring
    · rw [Option.some.injEq] at h
      rw [← h, List.prod_append, List.prod_singleton]
    · rw [Option.some.injEq] at h
      rw [← h]
      push_neg at h2
      rw [h2, mul_one]

/-- The product of the atempo stage factors equals the requested speed. -/
lemma atempoStages_prod (fuel : Nat) (speed : ℚ) (l : List ℚ)
    (h : atempoStages fuel speed = some l) : l.prod = speed := by
  rw [atempoStages] at h
  split_ifs at h with h1 h2
  · rw [Option.some.injEq] at h
    rw [← h, List.prod_singleton]
  · have := atempoDown_prod fuel speed [] l h
    simpa using this
  · have := atempoUp_prod fuel speed [] l h
    simpa using this

/-- The slow-speed loop finishes once the doubled factor reaches `1/2`. -/
lemma atempoDown_some (k : Nat) :
    ∀ (r : ℚ) (acc : List ℚ), 1/2 ≤ r * 2 ^ k →
      ∃ l, atempoDown (k + 1) r acc = some l := by
  induction k with
  | zero =>
    intro r acc h
    rw [atempoDown]
    have hnot : ¬ r < 1/2 := by
      push_neg
      simpa using h
    rw [if_neg hnot]
    split_ifs <;> exact ⟨_, rfl⟩
  | succ n ih =>
    intro r acc h
    rw [atempoDown]
    split_ifs with h1 h2
    · refine ih (r * 2) (acc ++ [1/2]) ?_
      calc (1 : ℚ)/2 ≤ r * 2 ^ (n + 1) := h
        _ = r * 2 * 2 ^ n := by ring
    · exact ⟨_, rfl⟩
    · exact ⟨_, rfl⟩

/-- The fast-speed loop finishes once the halved factor reaches `2`. -/
lemma atempoUp_some (k : Nat) :
    ∀ (r : ℚ) (acc : List ℚ), r ≤ 2 * 2 ^ k →
      ∃ l, atempoUp (k + 1) r acc = some l := by
  induction k with
  | zero =>
    intro r acc h
    rw [atempoUp]
    have hnot : ¬ r > 2 := by
      push_neg
      simpa using h
    rw [if_neg hnot]
    split_ifs <;> exact ⟨_, rfl⟩
  | succ n ih =>
    intro r acc h
    rw [atempoUp]
    split_ifs with h1 h2
    · refine ih (r / 2) (acc ++ [2]) ?_
      have h2n : (0 : ℚ) < 2 ^ n := by positivity
      calc r / 2 ≤ 2 * 2 ^ (n + 1) / 2 := by linarith
        _ = 2 * 2 ^ n := by ring
    · exact ⟨_, rfl⟩
    · exact ⟨_, rfl⟩

/-- For a positive speed some fuel suffices for the whole decomposition. -/
lemma atempoStages_total (speed : ℚ) (hpos : 0 < speed) :
    ∃ fuel l, atempoStages fuel speed = some l := by
  by_cases hin : 1/2 ≤ speed ∧ speed ≤ 2
  · exact ⟨0, [speed], by rw [atempoStages, if_pos hin]⟩
  · by_cases hlo : speed < 1/2
    · obtain ⟨k, hk⟩ := pow_unbounded_of_one_lt ((1/2) / speed) (by norm_num : (1:ℚ) < 2)
      have hk2 : 1/2 ≤ speed * 2 ^ k := by
        rw [div_lt_iff₀ hpos] at hk
        nlinarith
      obtain ⟨l, hl⟩ := atempoDown_some k speed [] hk2
      refine ⟨k + 1, l, ?_⟩
      rw [atempoStages, if_neg hin, if_pos hlo]
      exact hl
    · obtain ⟨k, hk⟩ := pow_unbounded_of_one_lt (speed / 2) (by norm_num : (1:ℚ) < 2)
      have hk2 : speed ≤ 2 * 2 ^ k := by
        rw [div_lt_iff₀ (by norm_num : (0:ℚ) < 2)] at hk
        linarith
      obtain ⟨l, hl⟩ := atempoUp_some k speed [] hk2
      refine ⟨k + 1, l, ?_⟩
      rw [atempoStages, if_neg hin, if_neg hlo]
      exact hl

/-- For a non-positive speed the sub-`0.5` decomposition loop never
finishes: doubling never lifts the factor above `1/2`. -/
lemma atempoDown_none_of_nonpos :
    ∀ (fuel : Nat) (r : ℚ) (acc : List ℚ), r ≤ 0 → atempoDown fuel r acc = none := by
  intro fuel
  induction fuel with
  | zero => intro r acc _; rw [atempoDown]
  | succ n ih =>
    intro r acc hr
    rw [atempoDown, if_pos (by linarith : r < 1/2)]
    exact ih (r * 2) (acc ++ [1/2]) (by linarith)

/-! ## Claim theorems -/

/-- C1: in a multi-input transition build, if at least one input has audio
the builder synthesizes exactly one silent pad per audio-less input (and
none for inputs with audio, by the shape of `silentPadFilters`) and the
graph carries the audio output label `a`; if no input has audio there are
no silent pads and no audio label.  In particular `[true, false, true]`
yields exactly the one pad `[silent1]` with the audio label present, and
`[false, false]` has no audio label. -/
theorem transition_silent_pad_synthesis (n : Nat) (ha : List Bool)
    (hlen : ha.length = n) :
    (ha.any (fun h => h) = true →
      (crossfadeFilterLists n ha).1 =
        silentPadFilters n ha ++
          [videoConcatInputs n ++ "concat=n=" ++ toString n ++ ":v=1:a=0[v]"] ∧
      (crossfadeFilterLists n ha).2 =
        [audioConcatInputs n ha ++ "concat=n=" ++ toString n ++ ":v=0:a=1[a]"] ∧
      wipeFilterLists n ha = crossfadeFilterLists n ha ∧
      (silentPadFilters n ha).length = (ha.filter (fun b => !b)).length ∧
      "a" ∈ transitionOutputLabels ha) ∧
    (ha.any (fun h => h) = false →
      (crossfadeFilterLists n ha).1 =
        [videoConcatInputs n ++ "concat=n=" ++ toString n ++ ":v=1:a=0[v]"] ∧
      (crossfadeFilterLists n ha).2 = [] ∧
      wipeFilterLists n ha = crossfadeFilterLists n ha ∧
      "a" ∉ transitionOutputLabels ha) ∧
    silentPadFilters 3 [true, false, true] = [silentFilter 1] ∧
    "a" ∈ transitionOutputLabels [true, false, true] ∧
    "a" ∉ transitionOutputLabels [false, false] := by
  refine ⟨?_, ?_, by decide, by decide, by decide⟩
  · intro hany
    have hshape := crossfadeFilterLists_any n ha hlen hany
    refine ⟨by rw [hshape], by rw [hshape], by rw [wipeFilterLists_eq_crossfade],
      silentPadFilters_length n ha hlen, ?_⟩
    simp [transitionOutputLabels, hany]
  · intro hany
    have hshape := crossfadeFilterLists_none n ha hany
    refine ⟨by rw [hshape], by rw [hshape], by rw [wipeFilterLists_eq_crossfade], ?_⟩
    simp [transitionOutputLabels, hany]

/-- C1 witness at `hasAudio = [true, false, true]`. -/
theorem transition_silent_pad_synthesis_witness :
    (crossfadeFilterLists 3 [true, false, true]).1 =
      silentPadFilters 3 [true, false, true] ++
        [videoConcatInputs 3 ++ "concat=n=" ++ toString 3 ++ ":v=1:a=0[v]"] ∧
    (crossfadeFilterLists 3 [true, false, true]).2 =
      [audioConcatInputs 3 [true, false, true] ++ "concat=n=" ++ toString 3 ++ ":v=0:a=1[a]"] ∧
    wipeFilterLists 3 [true, false, true] = crossfadeFilterLists 3 [true, false, true] ∧
    (silentPadFilters 3 [true, false, true]).length =
      (([true, false, true] : List Bool).filter (fun b => !b)).length ∧
    "a" ∈ transitionOutputLabels [true, false, true] :=
  (transition_silent_pad_synthesis 3 [true, false, true] rfl).1 rfl

/-- C2: for a positive speed whose decomposition finished, the product of
the atempo stage factors is exactly the requested speed; a factor in
`[0.5, 2.0]` gives exactly the single stage `[speed]`; `speed = 4` resolves
to exactly two `2.0` stages; and the video filter `setpts=PTS/speed`
multiplies every presentation timestamp by the reciprocal of the speed. -/
theorem speed_video_atempo_chain (speed : ℚ) (fuel : Nat) (l : List ℚ)
    (hpos : 0 < speed) (h : atempoStages fuel speed = some l) :
    l.prod = speed ∧
    (1/2 ≤ speed → speed ≤ 2 → l = [speed]) ∧
    atempoStages 2 4 = some [2, 2] ∧
    (∀ pts : ℚ, setptsPTS speed pts = pts * speed⁻¹) := by
  refine ⟨atempoStages_prod fuel speed l h, ?_, ?_, ?_⟩
  · intro hlo hhi
    rw [atempoStages, if_pos ⟨hlo, hhi⟩, Option.some.injEq] at h
    exact h.symm
  · norm_num [atempoStages, atempoUp]
  · intro pts
    rw [setptsPTS, div_eq_mul_inv]

/-- C2 witness at `speed = 4`, fuel 2, chain `[2, 2]`. -/
theorem speed_video_atempo_chain_witness :
    ([2, 2] : List ℚ).prod = 4 ∧
    ((1 : ℚ)/2 ≤ 4 → (4 : ℚ) ≤ 2 → ([2, 2] : List ℚ) = [4]) ∧
    atempoStages 2 4 = some [2, 2] ∧
    (∀ pts : ℚ, setptsPTS 4 pts = pts * 4⁻¹) :=
  speed_video_atempo_chain 4 2 [2, 2] (by norm_num)
    (by norm_num [atempoStages, atempoUp])

/-- C3: on the buffered endpoints, whatever the operation and whatever the
outcome of probe and ffmpeg run (including a failed run that left a partial
output file), no temp file of the request remains after the response. -/
theorem buffered_temp_cleanup :
    (∀ (operation : String) (probeOk jobOk producedOut : Bool),
      (processVideoBuffered operation probeOk jobOk producedOut).remaining = []) ∧
    (∀ (numFiles : Nat) (transition : String)
      (hasTransitionField jobOk producedOut : Bool),
      (transitionVideos numFiles transition hasTransitionField jobOk
        producedOut).remaining = []) := by
  constructor
  · intro operation probeOk jobOk producedOut
    rcases Bool.eq_false_or_eq_true (operation == "add_audio_track") with hAdd | hAdd <;>
      simp only [processVideoBuffered, hAdd] <;>
      split_ifs <;> rfl
  · intro numFiles transition hasTransitionField jobOk producedOut
    have hself : ∀ ps : List String, eraseAll ps ps = [] := fun ps => by
      have := eraseAll_append_self ps []
      rwa [List.append_nil] at this
    rw [transitionVideos]
    split_ifs with h1 h2 h3 h4 h5
    · rfl
    · rfl
    · simp [hself]
    · simp [eraseAll_append_self, List.erase_cons_head]
    · simp [eraseAll_append_self, List.erase_cons_head]
    · simp [hself]

/-- C5: fewer than 2 inputs to the transition endpoint is answered 400
before any temp file is created and before any ffmpeg invocation, and all
three transition-family builders raise their build error. -/
theorem transition_too_few_inputs (n : Nat) (hn : n < 2) (dur tr : String)
    (ha : List Bool) (hasField jobOk producedOut : Bool) :
    (transitionVideos n tr hasField jobOk producedOut).status = 400 ∧
    (transitionVideos n tr hasField jobOk producedOut).ranFfmpeg = false ∧
    (transitionVideos n tr hasField jobOk producedOut).created = [] ∧
    buildCrossfadeFilter n dur ha tr =
      Except.error "At least 2 videos required for crossfade" ∧
    buildWipeFilter n dur tr ha =
      Except.error "At least 2 videos required for wipe transition" ∧
    buildFadeFilter n dur ha =
      Except.error "At least 2 videos required for fade transition" := by
  rw [transitionVideos, if_pos hn, buildCrossfadeFilter, if_pos hn,
    buildWipeFilter, if_pos hn, buildFadeFilter, if_pos hn]
  exact ⟨rfl, rfl, rfl, rfl, rfl, rfl⟩

/-- C5 witness at one single input. -/
theorem transition_too_few_inputs_witness :
    (transitionVideos 1 "fade" true true false).status = 400 ∧
    (transitionVideos 1 "fade" true true false).ranFfmpeg = false ∧
    (transitionVideos 1 "fade" true true false).created = [] ∧
    buildCrossfadeFilter 1 "1" [true] "fade" =
      Except.error "At least 2 videos required for crossfade" ∧
    buildWipeFilter 1 "1" "wipeleft" [true] =
      Except.error "At least 2 videos required for wipe transition" ∧
    buildFadeFilter 1 "1" [true] =
      Except.error "At least 2 videos required for fade transition" :=
  transition_too_few_inputs 1 (by decide) "1" "wipeleft" [true] true true false

/-- C6: a failed probe makes the stream introspector report "no audio"
instead of failing (also when the metadata carries no `streams` field),
while a failed probe in `get_video_info` is fatal and surfaced as a 500
error response carrying the probe error message. -/
theorem probe_failure_handling :
    (∀ e : String, checkHasAudioStream (Except.error e) = false) ∧
    (∀ md : Metadata, md.streams = none → checkHasAudioStream (Except.ok md) = false) ∧
    (∀ e : String, e ≠ "" →
      getVideoInfoStreaming (Except.error e) = InfoResponse.error 500 e) ∧
    getVideoInfoStreaming (Except.error "") =
      InfoResponse.error 500 "Failed to get video info" ∧
    (∀ md : Metadata, getVideoInfoStreaming (Except.ok md) = InfoResponse.json md) := by
  refine ⟨fun e => rfl, ?_, ?_, rfl, fun md => rfl⟩
  · intro md hmd
    rw [checkHasAudioStream, hmd]
  · intro e he
    rw [getVideoInfoStreaming, orElseStr, if_neg he]

/-- C6 witness at a concrete probe error. -/
theorem probe_failure_handling_witness :
    checkHasAudioStream (Except.error "boom") = false ∧
    checkHasAudioStream (Except.ok ⟨none⟩) = false ∧
    getVideoInfoStreaming (Except.error "boom") = InfoResponse.error 500 "boom" :=
  ⟨probe_failure_handling.1 "boom",
   probe_failure_handling.2.1 ⟨none⟩ rfl,
   probe_failure_handling.2.2.1 "boom" (by decide)⟩

/-- C7: the pan-to-gain mapping sends `-1` to gains `(1, 0)`, `1` to
`(0, 1)`, `0` to `(1, 1)`, and within `[-1, 1]` a negative pan attenuates
only the right channel while a positive pan attenuates only the left. -/
theorem audio_pan_gain_mapping (p : ℚ) (hlo : -1 ≤ p) (hhi : p ≤ 1) :
    panGains (-1) = (1, 0) ∧ panGains 1 = (0, 1) ∧ panGains 0 = (1, 1) ∧
    (p < 0 → panGains p = (1, 1 + p) ∧ (panGains p).2 < 1 ∧ 0 ≤ (panGains p).2) ∧
    (0 < p → panGains p = (1 - p, 1) ∧ (panGains p).1 < 1 ∧ 0 ≤ (panGains p).1) := by
  refine ⟨by norm_num [panGains], by norm_num [panGains], by norm_num [panGains], ?_, ?_⟩
  · intro hneg
    rw [panGains, if_pos hneg]
    refine ⟨rfl, ?_, ?_⟩
    · show (1 : ℚ) + p < 1
      linarith
    · show (0 : ℚ) ≤ 1 + p
      linarith
  · intro hposp
    rw [panGains, if_neg (by linarith), if_pos hposp]
    refine ⟨rfl, ?_, ?_⟩
    · show (1 : ℚ) - p < 1
      linarith
    · show (0 : ℚ) ≤ 1 - p
      linarith

/-- C7 witness at `pan = -1/2`. -/
theorem audio_pan_gain_mapping_witness :
    panGains (-1) = (1, 0) ∧ panGains 1 = (0, 1) ∧ panGains 0 = (1, 1) ∧
    ((-1/2 : ℚ) < 0 → panGains (-1/2) = (1, 1 + (-1/2)) ∧
      (panGains (-1/2)).2 < 1 ∧ 0 ≤ (panGains (-1/2)).2) ∧
    ((0 : ℚ) < -1/2 → panGains (-1/2) = (1 - (-1/2), 1) ∧
      (panGains (-1/2)).1 < 1 ∧ 0 ≤ (panGains (-1/2)).1) :=
  audio_pan_gain_mapping (-1/2) (by norm_num) (by norm_num)

/-- C10: the atempo decomposition terminates for every strictly positive
speed, and for every speed `≤ 0` (which the handler never rejects) the
sub-`0.5` decomposition loop never terminates, whatever fuel it is given. -/
theorem speed_decomposition_termination (speed : ℚ) :
    (0 < speed → ∃ fuel l, atempoStages fuel speed = some l) ∧
    (speed ≤ 0 → ∀ (fuel : Nat) (acc : List ℚ), atempoDown fuel speed acc = none) := by
  refine ⟨atempoStages_total speed, ?_⟩
  intro hnp fuel acc
  exact atempoDown_none_of_nonpos fuel speed acc hnp

/-- C10 witness: termination at `speed = 4`, divergence at `speed = -1`. -/
theorem speed_decomposition_termination_witness :
    (∃ fuel l, atempoStages fuel 4 = some l) ∧
    atempoDown 5 (-1) [] = none :=
  ⟨(speed_decomposition_termination 4).1 (by norm_num),
   (speed_decomposition_termination (-1)).2 (by norm_num) 5 []⟩

/-- C4 counterexample: for the unknown operation `teleport_video` the
buffered handler stages an input temp file before dispatching (so temp
files ARE created for the request) and answers with status 500, a server
error rather than a client error. -/
theorem unknown_op_counterexample :
    (processVideoBuffered "teleport_video" true true false).created = ["input"] ∧
    (processVideoBuffered "teleport_video" true true false).created ≠ [] ∧
    (processVideoBuffered "teleport_video" true true false).status = 500 ∧
    (processVideoBuffered "teleport_video" true true false).errMessage =
      "Unknown operation: teleport_video" := by
  refine ⟨rfl, by decide, rfl, rfl⟩

/-- C4 amended: for an operation registered in neither dispatch switch, the
streaming handler answers 400 with the `Unknown operation` message and
creates no temp file; the buffered handler stages the input temp file
before dispatching, answers 500 with the same message, and deletes the
staged file in its catch block, so no temp file remains after the
response. Neither handler crashes or runs ffmpeg. -/
theorem unknown_op_dispatch (op : String) (hns : op ∉ knownStreamingOps)
    (hgi : op ≠ "get_video_info") (hnb : op ∉ knownBufferedOps)
    (probeOk jobOk producedOut : Bool) :
    (processVideoStreaming op probeOk).status = 400 ∧
    (processVideoStreaming op probeOk).errMessage = "Unknown operation: " ++ op ∧
    (processVideoStreaming op probeOk).created = [] ∧
    (processVideoStreaming op probeOk).ranFfmpeg = false ∧
    (processVideoBuffered op probeOk jobOk producedOut).status = 500 ∧
    (processVideoBuffered op probeOk jobOk producedOut).errMessage =
      "Unknown operation: " ++ op ∧
    (processVideoBuffered op probeOk jobOk producedOut).created = ["input"] ∧
    (processVideoBuffered op probeOk jobOk producedOut).ranFfmpeg = false ∧
    (processVideoBuffered op probeOk jobOk producedOut).remaining = [] := by
  have hcf : op ≠ "crossfade_transition" := by
    intro h
    apply hns
    rw [h]
    decide
  have haa : op ≠ "add_audio_track" := by
    intro h
    apply hnb
    rw [h]
    decide
  have h1 : (op == "get_video_info") = false := beq_eq_false_iff_ne.mpr hgi
  have h2 : (op == "crossfade_transition") = false := beq_eq_false_iff_ne.mpr hcf
  have h3 : (op == "add_audio_track") = false := beq_eq_false_iff_ne.mpr haa
  have h4 : knownStreamingOps.contains op = false := by
    simp [List.contains, hns]
  have h5 : knownBufferedOps.contains op = false := by
    simp [List.contains, hnb]
  refine ⟨?_, ?_, ?_, ?_, ?_, ?_, ?_, ?_, ?_⟩ <;>
    simp [processVideoStreaming, processVideoBuffered, h1, h2, h3, h4, h5, hns, hnb]

/-- C4 witness at the unknown operation `teleport_video`. -/
theorem unknown_op_dispatch_witness :
    (processVideoStreaming "teleport_video" true).status = 400 ∧
    (processVideoStreaming "teleport_video" true).errMessage =
      "Unknown operation: " ++ "teleport_video" ∧
    (processVideoStreaming "teleport_video" true).created = [] ∧
    (processVideoStreaming "teleport_video" true).ranFfmpeg = false ∧
    (processVideoBuffered "teleport_video" true true false).status = 500 ∧
    (processVideoBuffered "teleport_video" true true false).errMessage =
      "Unknown operation: " ++ "teleport_video" ∧
    (processVideoBuffered "teleport_video" true true false).created = ["input"] ∧
    (processVideoBuffered "teleport_video" true true false).ranFfmpeg = false ∧
    (processVideoBuffered "teleport_video" true true false).remaining = [] :=
  unknown_op_dispatch "teleport_video" (by decide) (by decide) (by decide) true true false

/-- C8 counterexample: `pan = 2` lies outside `[-1, 1]` yet the `audio_pan`
case is not rejected — the gain pair is computed (left gain `-1`) and
handed on to the engine, so no validation error precedes the filter build. -/
theorem audio_pan_no_validation_counterexample :
    audioPanProcess 2 = Except.ok (panGains 2) ∧
    panGains 2 = (-1, 1) ∧
    (panGains 2).1 < 0 := by
  refine ⟨rfl, ?_, ?_⟩
  · rw [panGains, if_neg (by norm_num), if_pos (by norm_num)]
    norm_num
  · rw [panGains, if_neg (by norm_num), if_pos (by norm_num)]
    norm_num

/-- C8 amended: the `audio_pan` handlers perform no range validation at
all: every rational pan value is accepted and mapped straight to the gain
pair, and an out-of-range value produces a negative gain coefficient that
is passed to the engine instead of a validation error. -/
theorem audio_pan_no_validation (p : ℚ) (hout : p < -1 ∨ 1 < p) :
    audioPanProcess p = Except.ok (panGains p) ∧
    ((panGains p).1 < 0 ∨ (panGains p).2 < 0) := by
  refine ⟨rfl, ?_⟩
  rcases hout with h | h
  · right
    rw [panGains, if_pos (by linarith)]
    show (1 : ℚ) + p < 0
    linarith
  · left
    rw [panGains, if_neg (by linarith), if_pos (by linarith)]
    show (1 : ℚ) - p < 0
    linarith

/-- C8 witness at the out-of-range `pan = 2`. -/
theorem audio_pan_no_validation_witness :
    audioPanProcess 2 = Except.ok (panGains 2) ∧
    ((panGains 2).1 < 0 ∨ (panGains 2).2 < 0) :=
  audio_pan_no_validation 2 (Or.inr (by norm_num))

/-- C9 counterexample: for exactly two clips (no audio, duration 1) the
built video chain copies the first clip unchanged and fades in only the
last clip — the first clip's entry is the plain `copy` filter and not the
fade a symmetric treatment would give it. -/
theorem fade_two_clips_not_symmetric :
    (fadeFilterLists 2 "1" [false, false]).1 =
      ["[0:v]copy[v0fade]", "[1:v]fade=t=in:st=0:d=1[v1fade]",
       "[v0fade][v1fade]concat=n=2:v=1:a=0[v]"] ∧
    fadeClipVideoFilter 0 2 "1" = "[0:v]copy[v0fade]" ∧
    fadeClipVideoFilter 0 2 "1" ≠ "[0:v]fade=t=in:st=0:d=1[v0fade]" ∧
    fadeClipVideoFilter 1 2 "1" = "[1:v]fade=t=in:st=0:d=1[v1fade]" := by
  refine ⟨by decide, by decide, by decide, by decide⟩

/-- C9 amended: for any `n ≥ 2` clips the fade-to-black build is a
concatenation of the whole clips in which the first clip is always passed
through unchanged (`copy`), including the two-clip case, and every later
clip — middle or last — gets a fade-in at its start; no symmetric fade is
applied for exactly two clips. -/
theorem fade_filter_edge_structure (n : Nat) (hn : 2 ≤ n) (dur : String)
    (ha : List Bool) :
    fadeClipVideoFilter 0 n dur = "[0:v]copy[v0fade]" ∧
    (∀ i, 0 < i → i < n →
      fadeClipVideoFilter i n dur =
        "[" ++ toString i ++ ":v]fade=t=in:st=0:d=" ++ dur ++
          "[v" ++ toString i ++ "fade]") ∧
    (fadeFilterLists n dur ha).1 =
      (if ha.any (fun h => h) && !(ha.all (fun h => h)) then silentPadFilters n ha
        else []) ++
      (List.range n).map (fun i => fadeClipVideoFilter i n dur) ++
      [String.join ((List.range n).map (fun i => "[v" ++ toString i ++ "fade]")) ++
        "concat=n=" ++ toString n ++ ":v=1:a=0[v]"] := by
  refine ⟨?_, ?_, rfl⟩
  · rw [fadeClipVideoFilter]
    split_ifs <;> first | rfl | (exfalso; simp_all)
  · intro i hi hin
    have hz : (i == 0) = false := by
      simp [Nat.pos_iff_ne_zero.mp hi]
    rw [fadeClipVideoFilter, hz]
    simp only [Bool.false_and, Bool.false_eq_true, if_false]
    split_ifs <;> rfl

/-- C9 witness at two clips. -/
theorem fade_filter_edge_structure_witness :
    fadeClipVideoFilter 0 2 "1" = "[0:v]copy[v0fade]" ∧
    (∀ i, 0 < i → i < 2 →
      fadeClipVideoFilter i 2 "1" =
        "[" ++ toString i ++ ":v]fade=t=in:st=0:d=" ++ "1" ++
          "[v" ++ toString i ++ "fade]") ∧
    (fadeFilterLists 2 "1" [true, true]).1 =
      (if ([true, true] : List Bool).any (fun h => h) &&
          !(([true, true] : List Bool).all (fun h => h)) then
        silentPadFilters 2 [true, true]
      else []) ++
      (List.range 2).map (fun i => fadeClipVideoFilter i 2 "1") ++
      [String.join ((List.range 2).map (fun i => "[v" ++ toString i ++ "fade]")) ++
        "concat=n=" ++ toString 2 ++ ":v=1:a=0[v]"] :=
  fade_filter_edge_structure 2 (by decide) "1" [true, true]

end FinalCut
